import Mathlib

/-!
Shallow embedding of the Reading List client (src/site/src/App.jsx) and
verification of its specification.

The client is a single view over a remote table of book recommendations.
We embed its pure logic directly:

* a `Book` row (remote rows may have null fields, hence `Option`);
* the search filter `filteredBooks` (App.jsx lines 249-255);
* the tag rendering used by the table rows and the detail modal
  (App.jsx lines 300-308 and 429-437, two identical copies in the source);
* the loader `fetchBooks` (App.jsx lines 56-143), with the remote store
  modelled as a list of rows plus flags describing which remote calls error;
* the submission handler `handleSubmit` (App.jsx lines 155-217), with the
  insert outcome as a parameter;
* the notification sequencer (App.jsx lines 186-197): `setTimeout` calls are
  modelled as events carrying an absolute fire time and the time at which the
  timer was registered; simultaneous timers fire in registration order, as in
  the JS event loop, and each event overwrites the single `showNotification`
  state variable.

JavaScript strings are modelled as Lean `String`, and the string methods the
client uses are modelled as executable functions on the underlying character
list: `toLowerCase` maps `Char.toLower` over the characters, `trim` drops
whitespace from both ends, `split(',')` splits on commas keeping empty
pieces, and `hay.includes(needle)` is the contiguous-substring relation
`<:+:` on the character lists (decidable, hence executable).
-/

namespace ReadingList

/-! ### JS string methods -/

/-- JS `s.toLowerCase()`: lower-case every character. -/
def toLowerCase (s : String) : String := ⟨s.data.map Char.toLower⟩

/-- JS `s.trim()`: drop whitespace from both ends. -/
def trimStr (s : String) : String :=
  ⟨((s.data.dropWhile Char.isWhitespace).reverse.dropWhile Char.isWhitespace).reverse⟩

/-- Split a character list at every occurrence of `sep`, keeping empty
pieces; `acc` holds the current piece reversed. -/
def splitAux (sep : Char) : List Char → List Char → List (List Char)
  | [], acc => [acc.reverse]
  | c :: cs, acc =>
      if c == sep then acc.reverse :: splitAux sep cs []
      else splitAux sep cs (c :: acc)

/-- JS `s.split(',')`: the comma-separated pieces of `s`, empty pieces
included, so `"".split(',')` is `[""]` and `"a,".split(',')` is
`["a", ""]`. -/
def splitComma (s : String) : List String :=
  (splitAux ',' s.data []).map (fun l => ⟨l⟩)

/-- JS `hay.includes(needle)`: `needle` occurs contiguously in `hay`. -/
def strIncludes (hay needle : String) : Bool :=
  decide (needle.data <:+: hay.data)

/-- A row of the `books` table as the client sees it.  Text fields may be
null or absent in a raw row, hence `Option String`; `approved` may likewise
be absent (the built-in sample rows at App.jsx lines 134-138 have no
`approved` key at all). `created_at` is assigned by the store. -/
structure Book where
  id : Nat
  title : Option String
  author : Option String
  genre : Option String
  notes : Option String
  submittedBy : Option String
  approved : Option Bool
  created_at : Nat
deriving DecidableEq, Repr

/-! ### Search filter (App.jsx lines 249-255) -/

/-- JS `field?.toLowerCase().includes(searchTerm.toLowerCase())`:
a null/absent field is falsy (no match); otherwise ask whether the
lower-cased search term occurs contiguously in the lower-cased field. -/
def fieldMatches (field : Option String) (q : String) : Bool :=
  match field with
  | none => false
  | some t => strIncludes (toLowerCase t) (toLowerCase q)

/-- The filter predicate of `filteredBooks`: title OR author OR genre OR
notes OR submittedBy. -/
def bookMatches (b : Book) (q : String) : Bool :=
  fieldMatches b.title q || fieldMatches b.author q || fieldMatches b.genre q
    || fieldMatches b.notes q || fieldMatches b.submittedBy q

/-- `const filteredBooks = books.filter(book => ...)` (App.jsx 249-255). -/
def filteredBooks (books : List Book) (q : String) : List Book :=
  books.filter (fun b => bookMatches b q)

/-! ### Tag rendering (App.jsx lines 300-308 table row, 429-437 modal;
the two copies are textually identical) -/

/-- `book.genre?.split(',').map(tag => tag.trim() && <span>{tag.trim().toLowerCase()}</span>)`:
a null genre renders nothing; otherwise the string is comma-split, pieces
whose trim is empty are falsy and render nothing, and every other piece is
rendered trimmed and lower-cased, in order. -/
def displayedTags (genre : Option String) : List String :=
  match genre with
  | none => []
  | some g =>
      ((splitComma g).filter (fun t => !(trimStr t == ""))).map
        (fun t => toLowerCase (trimStr t))

/-! ### Loader (App.jsx lines 56-143) -/

/-- The fixed fallback sample list (App.jsx lines 134-138).  The literals
carry no `approved` and no `created_at` key. -/
def initialBooks : List Book :=
  [ { id := 1, title := some "To Kill a Mockingbird", author := some "Harper Lee",
      genre := some "Classic", notes := some "A powerful story about racial injustice",
      submittedBy := some "John Doe", approved := none, created_at := 0 },
    { id := 2, title := some "1984", author := some "George Orwell",
      genre := some "Dystopian", notes := some "A cautionary tale about totalitarianism",
      submittedBy := some "Jane Smith", approved := none, created_at := 0 },
    { id := 3, title := some "The Great Gatsby", author := some "F. Scott Fitzgerald",
      genre := some "Classic", notes := some "Explores themes of wealth and the American Dream",
      submittedBy := some "Robert Johnson", approved := none, created_at := 0 } ]

/-- Descending insertion by `created_at`, modelling the store's
`.order('created_at', { ascending: false })` on the filtered query. -/
def insertDesc (b : Book) : List Book → List Book
  | [] => [b]
  | c :: cs => if c.created_at ≤ b.created_at then b :: c :: cs else c :: insertDesc b cs

/-- Sort a list of rows by `created_at`, newest first. -/
def sortByCreatedDesc : List Book → List Book
  | [] => []
  | b :: bs => insertDesc b (sortByCreatedDesc bs)

/-- The store's answer to `.select('*').eq('approved', true).order('created_at',
{ ascending: false })`: the rows whose `approved` column is `true`, newest
first.  The store itself is outside the repository; this is its documented
query semantics. -/
def approvedQuery (table : List Book) : List Book :=
  sortByCreatedDesc (table.filter (fun b => b.approved == some true))

/-- Which of the loader's three remote calls fail, and whether the filtered
query returns a null payload.  `testError` covers both the `42P01`
undefined-table code and any other error on the probe: both branches of the
`if` at App.jsx lines 76-84 `throw`.  `allBooksError` is the unfiltered
diagnostic fetch at lines 88-95, whose error is only logged, never thrown. -/
structure FetchEnv where
  testError : Bool
  allBooksError : Bool
  filteredError : Bool
  dataNull : Bool
deriving DecidableEq, Repr

/-- The two state variables `fetchBooks` writes. -/
structure LoadState where
  books : List Book
  loading : Bool
deriving DecidableEq, Repr

/-- `fetchBooks` (App.jsx 56-143): set `loading`; probe the table (a thrown
error lands in `catch`); diagnostic unfiltered fetch (errors swallowed);
filtered+ordered query (a thrown error lands in `catch`, and a null payload
leaves `books` untouched via `if (data)`); `catch` replaces `books` with
`initialBooks`; `finally` clears `loading`. -/
def fetchBooks (st : LoadState) (table : List Book) (env : FetchEnv) : LoadState :=
  let run : LoadState :=
    if env.testError then { st with books := initialBooks }
    else if env.filteredError then { st with books := initialBooks }
    else if env.dataNull then st
    else { st with books := approvedQuery table }
  { run with loading := false }

/-! ### Submission form (App.jsx lines 15-21, 155-217) -/

/-- The controlled form state `newBook`: five string fields, all initialised
to the empty string. -/
structure FormState where
  title : String
  author : String
  genre : String
  notes : String
  submittedBy : String
deriving DecidableEq, Repr

/-- The empty form `{ title: '', author: '', genre: '', notes: '', submittedBy: '' }`. -/
def emptyForm : FormState :=
  { title := "", author := "", genre := "", notes := "", submittedBy := "" }

/-- The record sent to the store: `{ ...newBook, approved: false }`
(App.jsx 166-169).  The spread copies the five form fields and the literal
then forces `approved` to `false`. -/
structure Submission where
  title : String
  author : String
  genre : String
  notes : String
  submittedBy : String
  approved : Bool
deriving DecidableEq, Repr

/-- Build the submission object from the form (App.jsx 166-169). -/
def buildSubmission (f : FormState) : Submission :=
  { title := f.title, author := f.author, genre := f.genre, notes := f.notes,
    submittedBy := f.submittedBy, approved := false }

/-- Outcome of the `insert` call, decided by the remote store. -/
inductive InsertOutcome where
  | ok
  | fail (msg : String)
deriving DecidableEq, Repr

/-- Everything observable about one run of `handleSubmit`:
the final form contents, the final `isSubmitting` flag, the `alert` raised
(if any), the record sent to the store (if the insert call was issued at
all), whether the notification sequence was started, and whether
`fetchBooks` was re-invoked. -/
structure SubmitResult where
  form : FormState
  isSubmitting : Bool
  alert : Option String
  inserted : Option Submission
  notificationStarted : Bool
  refetched : Bool
deriving DecidableEq, Repr

/-- `handleSubmit` (App.jsx 155-217).  `s0` is the `isSubmitting` value on
entry.  If title or author is falsy (empty string), alert and return early,
leaving every state variable untouched.  Otherwise set `isSubmitting`,
send `{...newBook, approved:false}` to the store; on success start the
notification, reset the form and refetch; on failure alert with
`'Error: ' + error.message` and leave the form untouched; `finally` clears
`isSubmitting` in both cases. -/
def handleSubmit (s0 : Bool) (f : FormState) (outcome : InsertOutcome) : SubmitResult :=
  if f.title = "" ∨ f.author = "" then
    { form := f, isSubmitting := s0, alert := some "Title and author are required.",
      inserted := none, notificationStarted := false, refetched := false }
  else
    match outcome with
    | .ok =>
        { form := emptyForm, isSubmitting := false, alert := none,
          inserted := some (buildSubmission f), notificationStarted := true,
          refetched := true }
    | .fail msg =>
        { form := f, isSubmitting := false, alert := some ("Error: " ++ msg),
          inserted := some (buildSubmission f), notificationStarted := false,
          refetched := false }

/-! ### Notification sequencer (App.jsx lines 186-197)

`showNotification` is a single state variable holding `false`,
`'notification-enter'` or `'notification-exit'`.  A successful submission at
time `t` assigns `'notification-enter'` synchronously, registers a 2000ms
timer which assigns `'notification-exit'`, and that timer, when it fires at
`t+2000`, registers a further 1000ms timer which assigns `false`.  No timer
is ever cancelled.  We model each assignment as an event with its fire time
and the time its timer was registered (the JS event loop fires timers with
equal deadlines in registration order); the state at time `T` is the value
written by the greatest event at or before `T`. -/

/-- The three values `showNotification` takes. -/
inductive NotifVal where
  | hidden
  | entering
  | exiting
deriving DecidableEq, Repr

/-- One assignment to `showNotification`: it runs at `time`, was registered
at `sched`, and writes `val`. -/
structure NotifEvent where
  time : Nat
  sched : Nat
  val : NotifVal
deriving DecidableEq, Repr

/-- The three assignments caused by a successful submission at time `t`
(App.jsx 186-197): the handler writes `entering` at `t`; the outer
`setTimeout` (registered at `t`) fires at `t+2000` writing `exiting`; the
inner `setTimeout` (registered at `t+2000`, when the outer fires) fires at
`t+3000` writing `hidden`. -/
def submissionEvents (t : Nat) : List NotifEvent :=
  [ { time := t, sched := t, val := .entering },
    { time := t + 2000, sched := t, val := .exiting },
    { time := t + 3000, sched := t + 2000, val := .hidden } ]

/-- All assignments caused by successful submissions at the given times. -/
def eventsOf (subs : List Nat) : List NotifEvent :=
  (subs.map submissionEvents).flatten

/-- Of two assignments, keep the one the event loop runs later: the later
fire time wins, and among equal fire times the later-registered timer runs
last and wins. -/
def laterOf (acc e : NotifEvent) : NotifEvent :=
  if acc.time < e.time ∨ (acc.time = e.time ∧ acc.sched ≤ e.sched) then e else acc

/-- The value of `showNotification` at time `T`, given successful
submissions at times `subs`: the initial value is `false` (`hidden`), and
the last assignment at or before `T` wins. -/
def notifAt (subs : List Nat) (T : Nat) : NotifVal :=
  (((eventsOf subs).filter (fun e => e.time ≤ T)).foldl laterOf
    { time := 0, sched := 0, val := .hidden }).val

/-! ### Spec-side statement of the search criterion (spec section 4.2) -/

/-- The spec's wording of a field match: the field is present and the
lower-cased search string occurs contiguously in the lower-cased field. -/
def FieldHas (q : String) : Option String → Prop
  | none => False
  | some t => (toLowerCase q).data <:+: (toLowerCase t).data

/-- The spec's row-inclusion criterion: the search string matches the
title, the author, the raw tags string, the notes or the contributor. -/
def RowMatches (b : Book) (q : String) : Prop :=
  FieldHas q b.title ∨ FieldHas q b.author ∨ FieldHas q b.genre ∨
    FieldHas q b.notes ∨ FieldHas q b.submittedBy

/-! ### Concrete data used by witnesses and counterexamples -/

/-- A row all of whose text fields are null. -/
def blankBook : Book :=
  { id := 0, title := none, author := none, genre := none, notes := none,
    submittedBy := none, approved := none, created_at := 0 }

/-- A fully filled form, used by several witnesses. -/
def sampleForm : FormState :=
  { title := "Dune", author := "Frank Herbert", genre := "sci-fi",
    notes := "classic", submittedBy := "Ada" }

/-- A form whose title is empty. -/
def emptyTitleForm : FormState :=
  { title := "", author := "Frank Herbert", genre := "", notes := "", submittedBy := "" }

/-- The loader state before a load. -/
def startState : LoadState := { books := [], loading := true }

/-- A remote environment in which the existence probe errors. -/
def errEnv : FetchEnv :=
  { testError := true, allBooksError := false, filteredError := false, dataNull := false }

/-- A row the store holds with the approval flag set. -/
def approvedBook : Book :=
  { id := 7, title := some "T", author := some "A", genre := none, notes := none,
    submittedBy := none, approved := some true, created_at := 5 }

/-- A remote environment in which every call succeeds. -/
def okEnv : FetchEnv :=
  { testError := false, allBooksError := false, filteredError := false, dataNull := false }

/-- The spec's reading of the tag labels: every comma-split piece of the
raw tags string, trimmed and lower-cased, in order. -/
def claimedTags (genre : Option String) : List String :=
  match genre with
  | none => []
  | some g => (splitComma g).map (fun t => toLowerCase (trimStr t))

/-! ### Theorems -/

theorem fieldMatches_iff (field : Option String) (q : String) :
    fieldMatches field q = true ↔ FieldHas q field := by
  cases field <;> simp [fieldMatches, FieldHas, strIncludes]

theorem bookMatches_iff (b : Book) (q : String) :
    bookMatches b q = true ↔ RowMatches b q := by
  simp [bookMatches, RowMatches, fieldMatches_iff, or_assoc]

/-- C3: the search filter returns exactly the rows in which the search
string occurs case-insensitively in title, author, raw tags string, notes
or contributor name (a null or absent field never matches and never
errors), and the result is a subsequence of the input in the original
order. -/
theorem filteredBooks_characterization (books : List Book) (q : String) :
    (filteredBooks books q).Sublist books ∧
    (∀ b, b ∈ filteredBooks books q ↔ b ∈ books ∧ RowMatches b q) := by
  refine ⟨List.filter_sublist books, fun b => ?_⟩
  rw [filteredBooks, List.mem_filter, bookMatches_iff]


/-- C4 counterexample: filtering with the empty search string drops a row
all of whose five searched fields are null, so the list is not returned
unchanged. -/
theorem filter_empty_drops_blank_row :
    filteredBooks [blankBook] "" ≠ [blankBook] := by decide

theorem fieldMatches_some_empty (t : String) : fieldMatches (some t) "" = true := by
  have h : (toLowerCase "").data = ([] : List Char) := rfl
  simp [fieldMatches, strIncludes, h]

/-- C4 amended: filtering with the empty search string returns the list
unchanged provided every row has at least one of the five searched fields
present; a row with all five fields null is dropped even by the empty
search. -/
theorem filter_empty_on_present_fields (L : List Book)
    (h : ∀ b ∈ L, b.title ≠ none ∨ b.author ≠ none ∨ b.genre ≠ none ∨
      b.notes ≠ none ∨ b.submittedBy ≠ none) :
    filteredBooks L "" = L := by
  rw [filteredBooks, List.filter_eq_self]
  intro b hb
  rcases h b hb with h1 | h1 | h1 | h1 | h1 <;>
    obtain ⟨t, ht⟩ := Option.ne_none_iff_exists'.mp h1 <;>
    simp [bookMatches, ht, fieldMatches_some_empty]

/-- Witness for the amended C4 at the concrete sample list. -/
theorem filter_empty_on_present_fields_witness :
    filteredBooks initialBooks "" = initialBooks :=
  filter_empty_on_present_fields initialBooks (by decide)

/-! ### Submission claims -/

/-- C1: every record the submission form sends to the store carries
`approved = false`, whatever the five form fields contain. -/
theorem submit_inserts_unapproved (s0 : Bool) (f : FormState) (o : InsertOutcome)
    (sub : Submission) (h : (handleSubmit s0 f o).inserted = some sub) :
    sub.approved = false := by
  by_cases hc : f.title = "" ∨ f.author = ""
  · unfold handleSubmit at h
    rw [if_pos hc] at h
    exact absurd h (by simp)
  · unfold handleSubmit at h
    rw [if_neg hc] at h
    cases o <;> simp_all [buildSubmission] <;> rw [← h]


/-- Witness for C1 at a concrete form. -/
theorem submit_inserts_unapproved_witness :
    (buildSubmission sampleForm).approved = false :=
  submit_inserts_unapproved false sampleForm .ok (buildSubmission sampleForm) (by decide)

/-- C5: with an empty title or an empty author, submitting raises the
validation alert and issues no insert call. -/
theorem submit_empty_fields_rejected (s0 : Bool) (f : FormState) (o : InsertOutcome)
    (h : f.title = "" ∨ f.author = "") :
    (handleSubmit s0 f o).inserted = none ∧
    (handleSubmit s0 f o).alert = some "Title and author are required." := by
  unfold handleSubmit
  rw [if_pos h]
  exact ⟨rfl, rfl⟩


/-- Witness for C5 at a concrete form. -/
theorem submit_empty_fields_rejected_witness :
    (handleSubmit false emptyTitleForm .ok).inserted = none ∧
    (handleSubmit false emptyTitleForm .ok).alert = some "Title and author are required." :=
  submit_empty_fields_rejected false emptyTitleForm .ok (Or.inl rfl)

/-- C9: when the insert fails, the error is alerted, the form fields are
left unchanged, and `isSubmitting` is cleared; on success `isSubmitting` is
likewise cleared. -/
theorem submit_failure_preserves_form (s0 : Bool) (f : FormState) (msg : String)
    (h : ¬(f.title = "" ∨ f.author = "")) :
    (handleSubmit s0 f (.fail msg)).form = f ∧
    (handleSubmit s0 f (.fail msg)).alert = some ("Error: " ++ msg) ∧
    (handleSubmit s0 f (.fail msg)).isSubmitting = false ∧
    (handleSubmit s0 f .ok).isSubmitting = false := by
  unfold handleSubmit
  rw [if_neg h, if_neg h]
  exact ⟨rfl, rfl, rfl, rfl⟩

/-- Witness for C9 at a concrete form and error message. -/
theorem submit_failure_preserves_form_witness :
    (handleSubmit false sampleForm (.fail "boom")).form = sampleForm ∧
    (handleSubmit false sampleForm (.fail "boom")).alert = some "Error: boom" ∧
    (handleSubmit false sampleForm (.fail "boom")).isSubmitting = false ∧
    (handleSubmit false sampleForm .ok).isSubmitting = false :=
  submit_failure_preserves_form false sampleForm "boom" (by decide)

/-! ### Loader claims -/

/-- C6: if the probe or the filtered query throws, the visible list becomes
exactly the built-in three-row sample set and the loading flag is
cleared. -/
theorem load_failure_fallback (st : LoadState) (table : List Book) (env : FetchEnv)
    (h : env.testError = true ∨ env.filteredError = true) :
    (fetchBooks st table env).books = initialBooks ∧
    (fetchBooks st table env).loading = false ∧
    initialBooks.map Book.title =
      [some "To Kill a Mockingbird", some "1984", some "The Great Gatsby"] := by
  refine ⟨?_, rfl, by decide⟩
  rcases h with h | h
  · simp [fetchBooks, h]
  · cases hte : env.testError <;> simp [fetchBooks, hte, h]



/-- Witness for C6 at a concrete failing load. -/
theorem load_failure_fallback_witness :
    (fetchBooks startState [] errEnv).books = initialBooks ∧
    (fetchBooks startState [] errEnv).loading = false ∧
    initialBooks.map Book.title =
      [some "To Kill a Mockingbird", some "1984", some "The Great Gatsby"] :=
  load_failure_fallback startState [] errEnv (Or.inl rfl)

/-- C2 counterexample: a failed load places the three sample rows, which
carry no approval flag at all, in the visible list, so not every entry the
client ever places there has the flag true. -/
theorem fallback_breaks_approved_invariant :
    ((fetchBooks startState [] errEnv).books.all
      (fun b => b.approved == some true)) = false ∧
    (fetchBooks startState [] errEnv).books ≠ [] := by decide

theorem mem_insertDesc {c b : Book} {l : List Book} :
    c ∈ insertDesc b l ↔ c = b ∨ c ∈ l := by
  induction l with
  | nil => simp [insertDesc]
  | cons d ds ih =>
      rw [insertDesc]
      split
      · simp
      · simp [ih, or_left_comm]

theorem mem_sortByCreatedDesc {b : Book} {l : List Book} :
    b ∈ sortByCreatedDesc l ↔ b ∈ l := by
  induction l with
  | nil => simp [sortByCreatedDesc]
  | cons c cs ih => simp [sortByCreatedDesc, mem_insertDesc, ih]

/-- C2 amended: every entry a successful load places in the visible list
has approval flag true (the query filters on `approved = true`); a failed
load instead places the built-in sample rows, which carry no approval flag
at all; and no client operation ever sets the flag true. -/
theorem successful_load_only_approved (st : LoadState) (table : List Book) (env : FetchEnv)
    (ht : env.testError = false) (hf : env.filteredError = false)
    (hd : env.dataNull = false) :
    (∀ b ∈ (fetchBooks st table env).books, b.approved = some true) ∧
    (∀ b ∈ initialBooks, b.approved = none) := by
  constructor
  · intro b hb
    simp only [fetchBooks, ht, hf, hd, Bool.false_eq_true, if_false] at hb
    rw [approvedQuery, mem_sortByCreatedDesc, List.mem_filter] at hb
    simpa using hb.2
  · decide



/-- Witness for the amended C2 at a concrete successful load. -/
theorem successful_load_only_approved_witness :
    approvedBook.approved = some true :=
  (successful_load_only_approved startState [approvedBook] okEnv rfl rfl rfl).1
    approvedBook (by decide)

/-! ### Tag rendering claims -/


/-- C10 counterexample: a raw tags string with a whitespace-only piece,
such as `"a, ,b"`, renders the labels `["a", "b"]`, not the trimmed
lower-cased images of all three comma-split pieces `["a", "", "b"]`. -/
theorem tags_empty_piece_dropped :
    displayedTags (some "a, ,b") = ["a", "b"] ∧
    claimedTags (some "a, ,b") = ["a", "", "b"] ∧
    displayedTags (some "a, ,b") ≠ claimedTags (some "a, ,b") := by decide

theorem toLowerCase_eq_empty_iff (s : String) : toLowerCase s = "" ↔ s = "" := by
  constructor
  · intro h
    have h2 : s.data.map Char.toLower = [] := congrArg String.data h
    exact String.ext (List.map_eq_nil_iff.mp h2)
  · intro h
    subst h
    rfl

theorem beq_empty_toLowerCase (s : String) : (toLowerCase s == "") = (s == "") := by
  rw [Bool.eq_iff_iff]
  simp [toLowerCase_eq_empty_iff]

/-- C10 amended: the displayed labels are the comma-split pieces of the raw
tags string, trimmed and lower-cased, in order, except that pieces that
trim to the empty string are omitted; in particular `"Dystopian"` yields
`["dystopian"]`. -/
theorem displayed_tags_amended (genre : Option String) :
    displayedTags genre = (claimedTags genre).filter (fun l => !(l == "")) ∧
    displayedTags (some "Dystopian") = ["dystopian"] := by
  refine ⟨?_, by decide⟩
  cases genre with
  | none => rfl
  | some g =>
      rw [displayedTags, claimedTags, List.filter_map]
      congr 1
      apply List.filter_congr
      intro t _
      simp only [Function.comp_apply]
      rw [beq_empty_toLowerCase]


theorem notifAt_single (t u : Nat) :
    notifAt [t] u =
      if u < t then .hidden
      else if u < t + 2000 then .entering
      else if u < t + 3000 then .exiting
      else .hidden := by
  simp only [notifAt, eventsOf, submissionEvents, List.map_cons, List.map_nil,
    List.flatten_cons, List.flatten_nil, List.append_nil, List.filter_cons,
    List.filter_nil, decide_eq_true_eq]
  split_ifs <;> simp_all [laterOf, List.foldl] <;>
    first
      | omega
      | (split_ifs <;> first | rfl | omega | simp_all)


/-- C7: after a successful submission at time `t` (and no other
submission), the notification is `entering` from `t`, becomes `exiting`
exactly 2000ms later, and becomes `hidden` exactly 1000ms after that. -/
theorem notification_schedule (t : Nat) :
    notifAt [t] t = .entering ∧
    (∀ u, t ≤ u → u < t + 2000 → notifAt [t] u = .entering) ∧
    (∀ u, t + 2000 ≤ u → u < t + 3000 → notifAt [t] u = .exiting) ∧
    (∀ u, t + 3000 ≤ u → notifAt [t] u = .hidden) := by
  refine ⟨?_, fun u h1 h2 => ?_, fun u h1 h2 => ?_, fun u h1 => ?_⟩ <;>
    rw [notifAt_single] <;> split_ifs <;> first | rfl | omega

/-- Witness for C7 at a submission at time 0. -/
theorem notification_schedule_witness :
    notifAt [0] 0 = .entering ∧ notifAt [0] 1000 = .entering ∧
    notifAt [0] 2000 = .exiting ∧ notifAt [0] 2999 = .exiting ∧
    notifAt [0] 3000 = .hidden :=
  ⟨(notification_schedule 0).1,
   (notification_schedule 0).2.1 1000 (by decide) (by decide),
   (notification_schedule 0).2.2.1 2000 (by decide) (by decide),
   (notification_schedule 0).2.2.1 2999 (by decide) (by decide),
   (notification_schedule 0).2.2.2 3000 (by decide)⟩

/-- C8 counterexample: submissions at 0 and 1000; the claim predicts the
state is still `entering` at 2500 (the restart schedule would only move to
`exiting` at 3000), but the first cycle's uncancelled 2000ms timer has
already set `exiting` at 2000. -/
theorem notification_restart_cex :
    notifAt [0, 1000] 2500 = NotifVal.exiting ∧
    NotifVal.exiting ≠ NotifVal.entering := by decide

/-- C8 amended: a successful submission at `t + d`, mid-cycle of one at
`t` (`0 < d < 2000`), restarts the display from `entering`, but the first
cycle's timers are not cancelled: the state becomes `exiting` when the
first cycle's 2000ms timer fires at `t + 2000` (not 2000ms after the
second submission), and once every timer of both cycles has fired, at
`t + d + 3000`, the notification is `hidden`. -/
theorem notification_restart_uncancelled (t d : Nat) (h1 : 0 < d) (h2 : d < 2000) :
    notifAt [t, t + d] (t + d) = .entering ∧
    notifAt [t, t + d] (t + 2000) = .exiting ∧
    notifAt [t, t + d] (t + d + 3000) = .hidden := by
  refine ⟨?_, ?_, ?_⟩ <;>
    simp only [notifAt, eventsOf, submissionEvents, List.map_cons, List.map_nil,
      List.flatten_cons, List.flatten_nil, List.append_nil, List.cons_append,
      List.nil_append]
  · rw [List.filter_cons_of_pos (by simp),
        List.filter_cons_of_neg (by simp <;> omega),
        List.filter_cons_of_neg (by simp <;> omega),
        List.filter_cons_of_pos (by simp),
        List.filter_cons_of_neg (by simp <;> omega),
        List.filter_cons_of_neg (by simp <;> omega),
        List.filter_nil]
    simp only [List.foldl_cons, List.foldl_nil, laterOf]
    split_ifs <;> first | rfl | (dsimp only at *; omega)
  · rw [List.filter_cons_of_pos (by simp),
        List.filter_cons_of_pos (by simp),
        List.filter_cons_of_neg (by simp <;> omega),
        List.filter_cons_of_pos (by simp <;> omega),
        List.filter_cons_of_neg (by simp <;> omega),
        List.filter_cons_of_neg (by simp <;> omega),
        List.filter_nil]
    simp only [List.foldl_cons, List.foldl_nil, laterOf]
    split_ifs <;> first | rfl | (dsimp only at *; omega)
  · rw [List.filter_cons_of_pos (by simp <;> omega),
        List.filter_cons_of_pos (by simp <;> omega),
        List.filter_cons_of_pos (by simp <;> omega),
        List.filter_cons_of_pos (by simp <;> omega),
        List.filter_cons_of_pos (by simp <;> omega),
        List.filter_cons_of_pos (by simp),
        List.filter_nil]
    simp only [List.foldl_cons, List.foldl_nil, laterOf]
    split_ifs <;> first | rfl | (dsimp only at *; omega)

/-- Witness for the amended C8 at submissions at 0 and 1000. -/
theorem notification_restart_uncancelled_witness :
    notifAt [0, 1000] 1000 = .entering ∧
    notifAt [0, 1000] 2000 = .exiting ∧
    notifAt [0, 1000] 4000 = .hidden :=
  notification_restart_uncancelled 0 1000 (by decide) (by decide)


/-- Witness for C3 at the concrete sample list and a concrete search. -/
theorem filteredBooks_characterization_witness :
    (filteredBooks initialBooks "orwell").Sublist initialBooks :=
  (filteredBooks_characterization initialBooks "orwell").1

/-- Witness for the amended C10 at the concrete tags string. -/
theorem displayed_tags_amended_witness :
    displayedTags (some "Dystopian") = ["dystopian"] :=
  (displayed_tags_amended (some "Dystopian")).2

end ReadingList
